import Mathlib

/-!
# Verification of the email-phishing multi-signal scoring pipeline

A shallow embedding, in Lean 4, of the rule-based detector modules, the
DNS-backed authentication checks, and the two aggregation schemes of the
`emailphishing` repository, together with theorems settling the frozen
claims about them.

Conventions of the embedding:
* Python strings are Lean `String`s; `str.lower()` is modelled by mapping
  `Char.toLower` over the characters (faithful on the ASCII data these
  checks compare against).
* Python `None` is `Option.none`; Python truthiness of an optional string
  (`None` and `""` are falsy) is made explicit where the source relies on it.
* Python dicts used as records become structures; dict-shaped caches become
  association lists where the most recent assignment shadows older ones.
* Python floats are modelled as exact rationals (`ℚ`).  For the similarity
  threshold the float comparison `ratio >= 0.8` is encoded as the rational
  comparison against `4/5`; on the short strings involved the two agree,
  because distinct candidate ratios `2*M/T` with `T ≤ 58` are separated by
  far more than double-precision rounding error.
* Network DNS resolution is an explicit environment `String → DNSResult`
  mapping a query name to either a list of TXT record texts or a resolver
  failure (`err` covers NXDOMAIN, timeout and no-answer alike); the checks
  additionally report how many resolver queries they issued, so that
  cache-hit behaviour can be stated.
-/

namespace PyStr

/-- Python `str.lower()` (modelled character-wise; faithful on ASCII). -/
def lower (s : String) : String :=
  String.mk (s.toList.map Char.toLower)

/-- Split a character list at every occurrence of `c` (Python
`str.split(c)` for a one-character separator; empty segments are kept). -/
def splitChar (c : Char) : List Char → List (List Char)
  | [] => [[]]
  | x :: rest =>
    let r := splitChar c rest
    if x = c then [] :: r
    else match r with
      | [] => [[x]]
      | h :: t => (x :: h) :: t

/-- Python `s.split(sep)` for a one-character separator, on `String`s. -/
def split (c : Char) (s : String) : List String :=
  (splitChar c s.toList).map String.mk

/-- Boolean list-prefix test (structural, kernel-reducible). -/
def startsWithL : List Char → List Char → Bool
  | [], _ => true
  | _ :: _, [] => false
  | p :: ps, x :: xs => p = x && startsWithL ps xs

/-- Python `s.endswith(t)`. -/
def endsWith (s t : String) : Bool :=
  startsWithL t.toList.reverse s.toList.reverse

/-- Boolean contiguous-substring test (Python `t in s`). -/
def containsSub (s t : String) : Bool :=
  go s.toList t.toList
where
  go : List Char → List Char → Bool
    | xs, p =>
      startsWithL p xs ||
        match xs with
        | [] => false
        | _ :: rest => go rest p

/-- Join segments with `.` (Python `".".join(parts)`). -/
def joinDot : List String → String
  | [] => ""
  | [p] => p
  | p :: rest => p ++ "." ++ joinDot rest

/-- Last index of character `c` in `cs`, if any (Python `str.rfind`). -/
def lastIndexOf (cs : List Char) (c : Char) : Option Nat :=
  (List.range cs.length).foldl
    (fun acc i => if cs.getD i c = c then some i else acc) none

/-- Embeds `os.path.splitext(p)[1]` (posixpath): the extension starting at the last
dot, provided some character strictly between the last path separator and
that dot is not itself a dot (so `.bashrc` has no extension). -/
def splitextExt (p : String) : String :=
  let cs := p.toList
  let sep : Int := match lastIndexOf cs '/' with
    | none => -1
    | some i => (i : Int)
  let dot : Int := match lastIndexOf cs '.' with
    | none => -1
    | some i => (i : Int)
  if sep < dot then
    let fi := (sep + 1).toNat
    let di := dot.toNat
    if (List.range (di - fi)).any (fun k => cs.getD (fi + k) '.' ≠ '.') then
      String.mk (cs.drop di)
    else ""
  else ""

end PyStr

namespace AttachmentAnalyzer

/-- Embeds `DANGEROUS_EXTENSIONS` from `attachment_analyzer.py`. -/
def DANGEROUS_EXTENSIONS : List String :=
  [".exe", ".bat", ".cmd", ".scr", ".js", ".vbs", ".ps1", ".jar"]

/-- Embeds `MACRO_EXTENSIONS` from `attachment_analyzer.py`. -/
def MACRO_EXTENSIONS : List String :=
  [".docm", ".xlsm", ".pptm"]

/-- Embeds `MAX_FILE_SIZE_BYTES = 20 * 1024 * 1024`. -/
def MAX_FILE_SIZE_BYTES : Nat := 20 * 1024 * 1024

/-- Embeds `MAX_RISK_SCORE = 100`. -/
def MAX_RISK_SCORE : Nat := 100

def SCORE_DANGEROUS_EXTENSION : Nat := 45
def SCORE_MACRO_EXTENSION : Nat := 40
def SCORE_DOUBLE_EXTENSION : Nat := 20
def SCORE_MIME_MISMATCH : Nat := 15
def SCORE_LARGE_FILE : Nat := 8

/-- Embeds `MIME_MAP`: fixed extension → expected MIME type table. -/
def MIME_MAP : List (String × String) :=
  [ (".pdf", "application/pdf"),
    (".docx", "application/vnd.openxmlformats-officedocument.wordprocessingml.document"),
    (".xlsx", "application/vnd.openxmlformats-officedocument.spreadsheetml.sheet"),
    (".jpg", "image/jpeg"),
    (".jpeg", "image/jpeg"),
    (".png", "image/png"),
    (".exe", "application/x-msdownload"),
    (".bat", "application/x-msdownload"),
    (".cmd", "application/x-msdownload"),
    (".scr", "application/x-msdownload"),
    (".js", "application/javascript"),
    (".vbs", "text/vbscript"),
    (".ps1", "application/x-powershell"),
    (".jar", "application/java-archive"),
    (".docm", "application/vnd.ms-word.document.macroEnabled.12"),
    (".xlsm", "application/vnd.ms-excel.sheet.macroEnabled.12"),
    (".pptm", "application/vnd.ms-powerpoint.presentation.macroEnabled.12") ]

/-- Embeds `check_dangerous_extension`: extension of the lower-cased filename is in
the dangerous deny-list. -/
def check_dangerous_extension (filename : String) : Bool :=
  DANGEROUS_EXTENSIONS.contains (PyStr.splitextExt (PyStr.lower filename))

/-- Embeds `check_double_extension`: the lower-cased filename splits on `.` into at
least 3 parts and `"." + parts[-1]` is a dangerous extension. -/
def check_double_extension (filename : String) : Bool :=
  let parts := PyStr.split '.' (PyStr.lower filename)
  if parts.length < 3 then false
  else DANGEROUS_EXTENSIONS.contains ("." ++ parts.getLastD "")

/-- Embeds `check_mime_mismatch`: the extension's expected MIME type (when mapped)
differs from the declared one, case-insensitively. -/
def check_mime_mismatch (filename : String) (mime_type : String) : Bool :=
  let ext := PyStr.splitextExt (PyStr.lower filename)
  if ext = "" then false
  else match MIME_MAP.lookup ext with
    | none => false
    | some expected => PyStr.lower expected ≠ PyStr.lower mime_type

/-- Embeds `check_macro_extension`: extension is a macro-enabled Office extension. -/
def check_macro_extension (filename : String) : Bool :=
  MACRO_EXTENSIONS.contains (PyStr.splitextExt (PyStr.lower filename))

/-- Embeds `calculate_risk_score` of `attachment_analyzer.py`: priority-tier points
summed and capped at `MAX_RISK_SCORE`. -/
def calculate_risk_score (dangerous_ext double_ext mime_mismatch macro_ext
    large_file : Bool) : Nat :=
  let score := 0
  let score := if dangerous_ext then score + SCORE_DANGEROUS_EXTENSION else score
  let score := if macro_ext then score + SCORE_MACRO_EXTENSION else score
  let score := if double_ext then score + SCORE_DOUBLE_EXTENSION else score
  let score := if mime_mismatch then score + SCORE_MIME_MISMATCH else score
  let score := if large_file then score + SCORE_LARGE_FILE else score
  min score MAX_RISK_SCORE

/-- Embeds `get_verdict`: MALICIOUS at 40+, SUSPICIOUS at 15–39, else SAFE. -/
def get_verdict (risk_score : Nat) : String :=
  if 40 ≤ risk_score then "MALICIOUS"
  else if 15 ≤ risk_score then "SUSPICIOUS"
  else "SAFE"

/-- Result record of `analyze_attachment` (file bytes abstracted to a list,
only its length is ever read by the source). -/
structure AttachmentReport where
  filename : String
  mime_type : String
  size_bytes : Nat
  dangerous_extension : Bool
  double_extension : Bool
  mime_mismatch : Bool
  macro_extension : Bool
  large_file : Bool
  risk_score : Nat
  verdict : String
  deriving Repr, DecidableEq

/-- Embeds `analyze_attachment`: run all checks, score and classify one attachment. -/
def analyze_attachment (filename : String) (file_bytes : List Nat)
    (mime_type : String) : AttachmentReport :=
  let size_bytes := file_bytes.length
  let dangerous_ext := check_dangerous_extension filename
  let double_ext := check_double_extension filename
  let mime_mm := check_mime_mismatch filename mime_type
  let macro_ext := check_macro_extension filename
  let large_file := MAX_FILE_SIZE_BYTES < size_bytes
  let risk_score := calculate_risk_score dangerous_ext double_ext mime_mm
    macro_ext large_file
  { filename := filename
    mime_type := mime_type
    size_bytes := size_bytes
    dangerous_extension := dangerous_ext
    double_extension := double_ext
    mime_mismatch := mime_mm
    macro_extension := macro_ext
    large_file := large_file
    risk_score := risk_score
    verdict := get_verdict risk_score }

end AttachmentAnalyzer

namespace AttachmentChecks

/-- Embeds `EXECUTABLE_EXTENSIONS` of `attachment_checks.py` (note: no `.jar`,
unlike the analyzer module's deny-list). -/
def EXECUTABLE_EXTENSIONS : List String :=
  [".exe", ".bat", ".cmd", ".scr", ".js", ".vbs", ".ps1"]

def MACRO_EXTENSIONS : List String :=
  [".docm", ".xlsm", ".pptm"]

/-- Embeds `get_extension`: `None` for a falsy filename (Python `None` or `""`),
else the `os.path.splitext` extension of the lower-cased name. -/
def get_extension (filename : Option String) : Option String :=
  match filename with
  | none => none
  | some s => if s = "" then none else some (PyStr.splitextExt (PyStr.lower s))

/-- Embeds `has_double_extension` of `attachment_checks.py`: any non-falsy filename
splitting on `.` into more than two parts (the final segment is NOT
examined by this variant). -/
def has_double_extension (filename : Option String) : Bool :=
  match filename with
  | none => false
  | some s => if s = "" then false else 2 < (PyStr.split '.' s).length

/-- Embeds `is_executable`: Python `ext in EXECUTABLE_EXTENSIONS` where `ext` may
be `None` (then never a member). -/
def is_executable (ext : Option String) : Bool :=
  match ext with
  | none => false
  | some e => EXECUTABLE_EXTENSIONS.contains e

/-- Embeds `has_macro`. -/
def has_macro (ext : Option String) : Bool :=
  match ext with
  | none => false
  | some e => MACRO_EXTENSIONS.contains e

/-- One attachment record as produced by `parser.extract_attachments`
(the `sha256` field is irrelevant to every check and omitted). -/
structure Attachment where
  filename : Option String
  mime_type : String
  size_bytes : Nat
  deriving Repr, DecidableEq

/-- Output record of `run_attachment_checks`. -/
structure AttachmentResults where
  attachment_count : Nat
  dangerous_extension : Bool
  double_extension : Bool
  macro_file : Bool
  filenames : List (Option String)
  attachment_suspicious : Bool
  deriving Repr, DecidableEq

/-- Loop body state of `run_attachment_checks`. -/
def runStep (acc : Bool × Bool × Bool × List (Option String))
    (att : Attachment) : Bool × Bool × Bool × List (Option String) :=
  let ext := get_extension att.filename
  let dbl := acc.1 || has_double_extension att.filename
  let dang := acc.2.1 || is_executable ext
  let mac := acc.2.2.1 || has_macro ext
  (dbl, dang, mac, acc.2.2.2 ++ [att.filename])

/-- Embeds `run_attachment_checks`: OR the per-attachment indicators together and
derive the module-level `attachment_suspicious` flag. -/
def run_attachment_checks (attachments : List Attachment) : AttachmentResults :=
  let st := attachments.foldl runStep (false, false, false, [])
  { attachment_count := attachments.length
    dangerous_extension := st.2.1
    double_extension := st.1
    macro_file := st.2.2.1
    filenames := st.2.2.2
    attachment_suspicious := st.2.1 || st.1 || st.2.2.1 }

end AttachmentChecks

namespace Parsing

/-- Parsed `Authentication-Results` values (`parser.parse_authentication`):
each of spf/dkim/dmarc is the captured token or `None`. -/
structure AuthHeaderData where
  spf : Option String
  dkim : Option String
  dmarc : Option String
  deriving Repr, DecidableEq

/-- The metadata view built by `parser.extract_metadata`, restricted to the
fields the detector modules consume.  Raw header strings and the derived
domains are carried as given; `received_count` is the length of
`received_headers` exactly as the source computes it. -/
structure Metadata where
  from_domain : Option String
  reply_to_domain : Option String
  return_path_domain : Option String
  message_id_domain : Option String
  received_headers : List String
  helo : Option String
  authentication : AuthHeaderData
  deriving Repr, DecidableEq

/-- Embeds `metadata["received_count"] = len(received_headers)`. -/
def received_count (m : Metadata) : Nat :=
  m.received_headers.length

/-- Truthiness of the Python chain `a and b and a != b` computing a mismatch
flag in `extract_metadata`: truthy exactly when both optional domains are
present, non-empty, and different. -/
def mismatchFlag (derived from_domain : Option String) : Bool :=
  match derived, from_domain with
  | some a, some b => a ≠ "" && b ≠ "" && a ≠ b
  | _, _ => false

/-- Embeds `metadata["reply_to_mismatch"]`. -/
def reply_to_mismatch (m : Metadata) : Bool :=
  mismatchFlag m.reply_to_domain m.from_domain

/-- Embeds `metadata["return_path_mismatch"]`. -/
def return_path_mismatch (m : Metadata) : Bool :=
  mismatchFlag m.return_path_domain m.from_domain

/-- Embeds `metadata["message_id_mismatch"]`. -/
def message_id_mismatch (m : Metadata) : Bool :=
  mismatchFlag m.message_id_domain m.from_domain

end Parsing

namespace AuthChecks

/-- Output of `run_auth_checks`. -/
structure AuthResults where
  spf_fail : Bool
  dkim_fail : Bool
  dmarc_fail : Bool
  auth_suspicious : Bool
  deriving Repr, DecidableEq

/-- Embeds `run_auth_checks`: flags are equality of the parsed token with
`"fail"`; `auth_suspicious` is their disjunction. -/
def run_auth_checks (auth_data : Parsing.AuthHeaderData) : AuthResults :=
  { spf_fail := auth_data.spf = some "fail"
    dkim_fail := auth_data.dkim = some "fail"
    dmarc_fail := auth_data.dmarc = some "fail"
    auth_suspicious := auth_data.spf = some "fail" ||
      auth_data.dkim = some "fail" || auth_data.dmarc = some "fail" }

end AuthChecks

namespace DomainChecks

/-- Embeds `SUSPICIOUS_TLDS` of `domain_checks.py`. -/
def SUSPICIOUS_TLDS : List String :=
  [".ru", ".tk", ".xyz", ".top", ".gq", ".ml", ".cf"]

/-- Hard-coded lookalike substrings of `looks_like_spoofed`. -/
def SPOOF_PATTERNS : List String :=
  ["micros0ft", "paypa1", "g00gle", "arnazon", "faceb00k"]

/-- Embeds `has_suspicious_tld` (falsy domain → False). -/
def has_suspicious_tld (domain : Option String) : Bool :=
  match domain with
  | none => false
  | some d => if d = "" then false else SUSPICIOUS_TLDS.any (fun t => PyStr.endsWith d t)

/-- Embeds `looks_like_spoofed` (falsy domain → False). -/
def looks_like_spoofed (domain : Option String) : Bool :=
  match domain with
  | none => false
  | some d =>
    if d = "" then false else SPOOF_PATTERNS.any (fun p => PyStr.containsSub d p)

/-- Output of `run_domain_checks`. -/
structure DomainResults where
  reply_to_mismatch : Bool
  return_path_mismatch : Bool
  message_id_mismatch : Bool
  suspicious_tld : Bool
  spoofed_domain_pattern : Bool
  domain_suspicious : Bool
  deriving Repr, DecidableEq

/-- Embeds `run_domain_checks`: copies the three metadata mismatch flags, checks
the From domain's TLD and lookalike patterns, and ORs everything. -/
def run_domain_checks (m : Parsing.Metadata) : DomainResults :=
  let r1 := Parsing.reply_to_mismatch m
  let r2 := Parsing.return_path_mismatch m
  let r3 := Parsing.message_id_mismatch m
  let tld := has_suspicious_tld m.from_domain
  let spoof := looks_like_spoofed m.from_domain
  { reply_to_mismatch := r1
    return_path_mismatch := r2
    message_id_mismatch := r3
    suspicious_tld := tld
    spoofed_domain_pattern := spoof
    domain_suspicious := r1 || r2 || r3 || tld || spoof }

end DomainChecks

namespace InfrastructureChecks

/-- Embeds `helo_mismatch`: falsy HELO or From-domain → False, otherwise true when
the lower-cased From domain is not a substring of the lower-cased HELO. -/
def helo_mismatch (helo from_domain : Option String) : Bool :=
  match helo, from_domain with
  | some h, some f =>
    if h = "" || f = "" then false
    else !(PyStr.containsSub (PyStr.lower h) (PyStr.lower f))
  | _, _ => false

/-- Embeds `relay_anomaly`: at most one hop (possible injection) or more than 15
hops (abnormal relay chain). -/
def relay_anomaly (received_count : Nat) : Bool :=
  if received_count ≤ 1 then true
  else if 15 < received_count then true
  else false

/-- Output of `run_infrastructure_checks` (the originating-IP string is
carried through unchanged and omitted here). -/
structure InfraResults where
  relay_count : Nat
  private_ip_present : Bool
  helo_mismatch : Bool
  relay_anomaly : Bool
  infrastructure_suspicious : Bool
  deriving Repr, DecidableEq

/-- Embeds `run_infrastructure_checks`.  The regex/`ipaddress` private-IP scan of
`has_private_ip` is abstracted as the parameter `hasPrivateIpFn` (no claim
depends on its value); the rest follows the source. -/
def run_infrastructure_checks (hasPrivateIpFn : List String → Bool)
    (m : Parsing.Metadata) : InfraResults :=
  let priv := hasPrivateIpFn m.received_headers
  let hm := helo_mismatch m.helo m.from_domain
  let ra := relay_anomaly (Parsing.received_count m)
  { relay_count := Parsing.received_count m
    private_ip_present := priv
    helo_mismatch := hm
    relay_anomaly := ra
    infrastructure_suspicious := priv || hm || ra }

end InfrastructureChecks

namespace TimingChecks

/-- Embeds `extract_timestamps`: each Received header contributes at most one
parsed timestamp, in header order; headers whose regex/`strptime` parse
fails are skipped.  The regex-plus-`strptime` composite is abstracted as
the parameter `parseTs` (a header's timestamp in whole seconds, or `none`);
every claim about this module holds for an arbitrary parse. -/
def extract_timestamps (parseTs : String → Option Int)
    (received_headers : List String) : List Int :=
  received_headers.filterMap parseTs

/-- Embeds `has_time_travel`: some adjacent pair of timestamps strictly increases. -/
def has_time_travel (timestamps : List Int) : Bool :=
  if timestamps.length < 2 then false
  else pairScan timestamps
where
  pairScan : List Int → Bool
    | a :: b :: rest => a < b || pairScan (b :: rest)
    | _ => false

/-- Embeds `total_delivery_time`: absolute difference (in seconds) between the
first and last parsed timestamps, `None` below two timestamps. -/
def total_delivery_time (timestamps : List Int) : Option Int :=
  if timestamps.length < 2 then none
  else some ((timestamps.headD 0 - timestamps.getLastD 0).natAbs : Int)

/-- Embeds `suspicious_delivery`: under one second or over 24 hours. -/
def suspicious_delivery (total_seconds : Option Int) : Bool :=
  match total_seconds with
  | none => false
  | some t => if t < 1 then true else if 86400 < t then true else false

/-- Output of `run_timing_checks`. -/
structure TimingResults where
  timestamp_count : Nat
  time_travel_detected : Bool
  total_delivery_seconds : Option Int
  suspicious_delivery_time : Bool
  timing_suspicious : Bool
  deriving Repr, DecidableEq

/-- Embeds `run_timing_checks`. -/
def run_timing_checks (parseTs : String → Option Int)
    (received_headers : List String) : TimingResults :=
  let timestamps := extract_timestamps parseTs received_headers
  let travel_flag := has_time_travel timestamps
  let total_time := total_delivery_time timestamps
  let delay_flag := suspicious_delivery total_time
  { timestamp_count := timestamps.length
    time_travel_detected := travel_flag
    total_delivery_seconds := total_time
    suspicious_delivery_time := delay_flag
    timing_suspicious := travel_flag || delay_flag }

end TimingChecks

namespace Scoring

/-- The `WEIGHTS` table of `scoring.py`. -/
def WEIGHTS : String → Nat
  | "spf_fail" => 15
  | "dkim_fail" => 15
  | "dmarc_fail" => 20
  | "domain_suspicious" => 15
  | "url_suspicious" => 15
  | "attachment_suspicious" => 20
  | "infrastructure_suspicious" => 10
  | "header_suspicious" => 10
  | "timing_suspicious" => 10
  | "suspicious_encoding" => 5
  | _ => 0

/-- The flags `calculate_risk_score` reads out of `all_results` (one field
per `.get(...)` access, named after the dict keys). -/
structure ScoreInput where
  spf_fail : Bool
  dkim_fail : Bool
  dmarc_fail : Bool
  domain_suspicious : Bool
  url_suspicious : Bool
  attachment_suspicious : Bool
  infrastructure_suspicious : Bool
  header_suspicious : Bool
  timing_suspicious : Bool
  suspicious_encoding : Bool
  deriving Repr, DecidableEq

/-- Result of `scoring.calculate_risk_score`. -/
structure ScoreResult where
  score : Nat
  verdict : String
  triggers : List String
  deriving Repr, DecidableEq

/-- Embeds `calculate_risk_score` of `scoring.py`: accumulate the fixed weights and
trigger names in evaluation order, cap the score at 100, and classify. -/
def calculate_risk_score (r : ScoreInput) : ScoreResult :=
  let st : Nat × List String := (0, [])
  let st := if r.spf_fail then (st.1 + WEIGHTS "spf_fail", st.2 ++ ["SPF fail"]) else st
  let st := if r.dkim_fail then (st.1 + WEIGHTS "dkim_fail", st.2 ++ ["DKIM fail"]) else st
  let st := if r.dmarc_fail then (st.1 + WEIGHTS "dmarc_fail", st.2 ++ ["DMARC fail"]) else st
  let st := if r.domain_suspicious then (st.1 + WEIGHTS "domain_suspicious", st.2 ++ ["Domain anomaly"]) else st
  let st := if r.url_suspicious then (st.1 + WEIGHTS "url_suspicious", st.2 ++ ["Suspicious URL"]) else st
  let st := if r.attachment_suspicious then (st.1 + WEIGHTS "attachment_suspicious", st.2 ++ ["Malicious attachment"]) else st
  let st := if r.infrastructure_suspicious then (st.1 + WEIGHTS "infrastructure_suspicious", st.2 ++ ["Infrastructure anomaly"]) else st
  let st := if r.header_suspicious then (st.1 + WEIGHTS "header_suspicious", st.2 ++ ["Header anomaly"]) else st
  let st := if r.timing_suspicious then (st.1 + WEIGHTS "timing_suspicious", st.2 ++ ["Timing anomaly"]) else st
  let st := if r.suspicious_encoding then (st.1 + WEIGHTS "suspicious_encoding", st.2 ++ ["Suspicious encoding"]) else st
  let score := min st.1 100
  let verdict :=
    if 70 ≤ score then "PHISHING"
    else if 40 ≤ score then "SUSPICIOUS"
    else "SAFE"
  { score := score, verdict := verdict, triggers := st.2 }

/-- The fired rules in evaluation order, as (dict key, trigger name) pairs,
following the spec's reading of the weight table. -/
def ruleTable (r : ScoreInput) : List (Bool × String × String) :=
  [ (r.spf_fail, "spf_fail", "SPF fail"),
    (r.dkim_fail, "dkim_fail", "DKIM fail"),
    (r.dmarc_fail, "dmarc_fail", "DMARC fail"),
    (r.domain_suspicious, "domain_suspicious", "Domain anomaly"),
    (r.url_suspicious, "url_suspicious", "Suspicious URL"),
    (r.attachment_suspicious, "attachment_suspicious", "Malicious attachment"),
    (r.infrastructure_suspicious, "infrastructure_suspicious", "Infrastructure anomaly"),
    (r.header_suspicious, "header_suspicious", "Header anomaly"),
    (r.timing_suspicious, "timing_suspicious", "Timing anomaly"),
    (r.suspicious_encoding, "suspicious_encoding", "Suspicious encoding") ]

/-- Spec-side total: the sum of the fixed weights over exactly the flags
that are true. -/
def specWeightSum (r : ScoreInput) : Nat :=
  ((ruleTable r).filter (fun e => e.1)).foldl (fun acc e => acc + WEIGHTS e.2.1) 0

/-- Spec-side triggers: names of the fired rules, in evaluation order. -/
def specTriggers (r : ScoreInput) : List String :=
  ((ruleTable r).filter (fun e => e.1)).map (fun e => e.2.2)

end Scoring

namespace UrlAnalyzer

/-- Embeds `TRUSTED_DOMAINS` of `score_backend/url_analyzer.py`. -/
def TRUSTED_DOMAINS : List String :=
  ["paypal.com", "microsoft.com", "amazon.com", "google.com"]

/-- Embeds `SIMILARITY_THRESHOLD = 0.8`, as an exact rational. -/
def SIMILARITY_THRESHOLD : ℚ := 4 / 5

/-- Embeds `effective_domain`: the registrable two-label suffix of a host (the
host itself when it has fewer than two labels). -/
def effective_domain (host : String) : String :=
  let parts := PyStr.split '.' host
  if 2 ≤ parts.length then PyStr.joinDot (parts.drop (parts.length - 2))
  else host

/-- Length of the longest common prefix of two character lists. -/
def commonPrefixLen : List Char → List Char → Nat
  | a :: as, b :: bs => if a = b then commonPrefixLen as bs + 1 else 0
  | _, _ => 0

/-- Embeds `difflib.SequenceMatcher.find_longest_match` (no junk, autojunk
irrelevant at these lengths): the longest block `a[i:i+k] = b[j:j+k]`,
preferring the smallest `i`, then the smallest `j`.  Computed by brute
force over all start pairs; the fold keeps the first maximiser. -/
def longestMatch (a b : List Char) : Nat × Nat × Nat :=
  ((List.range (a.length + 1)).flatMap (fun i =>
      (List.range (b.length + 1)).map (fun j =>
        (i, j, commonPrefixLen (a.drop i) (b.drop j))))).foldl
    (fun best c => if best.2.2 < c.2.2 then c else best) (0, 0, 0)

/-- Embeds `SequenceMatcher.get_matching_blocks` total size, fuel-indexed: recurse
on the longest match, then on the pieces to its left and right.  Each
recursive call strictly shortens `a`, so `a.length` units of fuel suffice;
at fuel 0 the remaining `a` is empty and the result is 0, exactly as the
`k = 0` base case returns. -/
def matchingTotalAux : Nat → List Char → List Char → Nat
  | 0, _, _ => 0
  | fuel + 1, a, b =>
    let t := longestMatch a b
    let i := t.1
    let j := t.2.1
    let k := t.2.2
    if k = 0 then 0
    else matchingTotalAux fuel (a.take i) (b.take j) + k +
      matchingTotalAux fuel (a.drop (i + k)) (b.drop (j + k))

/-- Total number of matched characters `M` used by `SequenceMatcher.ratio`. -/
def matchingTotal (a b : List Char) : Nat :=
  matchingTotalAux a.length a b

/-- Numerator `2*M` of `SequenceMatcher(None, a, b).ratio()`. -/
def seqRatioNum (a b : String) : Nat :=
  2 * matchingTotal a.toList b.toList

/-- Denominator `len(a) + len(b)` of `SequenceMatcher(None, a, b).ratio()`. -/
def seqRatioDen (a b : String) : Nat :=
  a.length + b.length

/-- Embeds `SequenceMatcher(None, a, b).ratio()` as an exact rational (Python
defines the ratio of two empty strings to be 1.0).  Ratio comparisons in
the executable code below are carried out on the `seqRatioNum`/`seqRatioDen`
pairs by cross-multiplication, which agrees with the source's
double-precision comparisons: the candidate ratios have denominators small
enough that distinct values differ by far more than rounding error. -/
def ratioQ (a b : String) : ℚ :=
  if seqRatioDen a b = 0 then 1
  else (seqRatioNum a b : ℚ) / (seqRatioDen a b : ℚ)

/-- Embeds `abs(len(eff) - len(trusted))`. -/
def lenDiff (a b : String) : Nat :=
  ((a.length : Int) - (b.length : Int)).natAbs

/-- The quick exact/subdomain exit of `detect_lookalike`: the effective
domain equals a trusted entry or ends with `"." + trusted`. -/
def trustedOrSub (eff : String) : Bool :=
  TRUSTED_DOMAINS.any (fun t => eff = t || PyStr.endsWith eff ("." ++ t))

/-- One iteration of `detect_lookalike`'s loop over the trusted entries:
skip entries whose length differs by more than 3, otherwise keep the entry
iff its ratio strictly improves on the best so far (`best_ratio` is carried
as the numerator/denominator pair `best.1 / best.2.1`, initially `0/1`;
`ratio > best_ratio` is the cross-multiplied comparison). -/
def bestStep (eff : String) (best : Nat × Nat × Option String)
    (t : String) : Nat × Nat × Option String :=
  if 3 < lenDiff eff t then best
  else
    let n := seqRatioNum eff t
    let d := seqRatioDen eff t
    if best.1 * d < n * best.2.1 then (n, d, some t) else best

/-- Embeds `detect_lookalike` of `score_backend/url_analyzer.py`, reduced to the
brand it reports (the source wraps the winning trusted domain in a message
string; `none` models its `None`).  Faithfully keeps the early trusted
exact/subdomain exit, the length guards, the per-entry length-difference
skip, and the strict-improvement best-ratio tracking;
`best_ratio >= SIMILARITY_THRESHOLD` is the cross-multiplied comparison
`4 * den ≤ 5 * num`. -/
def detect_lookalike (domain : String) : Option String :=
  let eff := effective_domain domain
  if trustedOrSub eff then none
  else if eff.length < 3 || 20 < eff.length then none
  else
    let best := TRUSTED_DOMAINS.foldl (bestStep eff) (0, 1, none)
    match best.2.2 with
    | some t => if 4 * best.2.1 ≤ 5 * best.1 then some t else none
    | none => none

end UrlAnalyzer

namespace UrlAnalyzer

/-- Outcome of one `resolver.resolve(name, "TXT")` call: the TXT record
texts, or a resolver failure (`err` stands for any raised resolver
exception — NXDOMAIN, timeout, no-answer, unreachable server). -/
inductive DNSResult where
  | ans (records : List String)
  | err
  deriving Repr, DecidableEq

/-- The process-wide `_dns_cache` dict: an association list in which the
most recent assignment for a key shadows older ones. -/
def DnsCache := List (String × Bool)

/-- Embeds `_get_cache`. -/
def getCache (cache : DnsCache) (key : String) : Option Bool :=
  List.lookup key cache

/-- Embeds `_set_cache` (dict assignment). -/
def setCache (cache : DnsCache) (key : String) (value : Bool) : DnsCache :=
  (key, value) :: cache

/-- Embeds `has_spf` of `score_backend/url_analyzer.py`, with the DNS network as
an explicit environment `env` (query name → outcome) and the cache threaded
as state.  Returns the boolean result, the updated cache, and the number of
resolver queries issued by this call.  A raised resolver exception falls
through to the `False`-caching tail; no error escapes. -/
def has_spf (env : String → DNSResult) (cache : DnsCache) (domain : String) :
    Bool × DnsCache × Nat :=
  let key := "spf_" ++ domain
  match getCache cache key with
  | some cached => (cached, cache, 0)
  | none =>
    match env domain with
    | .ans records =>
      if records.any (fun r => PyStr.containsSub (PyStr.lower r) "v=spf1") then
        (true, setCache cache key true, 1)
      else (false, setCache cache key false, 1)
    | .err => (false, setCache cache key false, 1)

/-- Embeds `has_dmarc`: same shape as `has_spf` over `_dmarc.<domain>`. -/
def has_dmarc (env : String → DNSResult) (cache : DnsCache) (domain : String) :
    Bool × DnsCache × Nat :=
  let key := "dmarc_" ++ domain
  match getCache cache key with
  | some cached => (cached, cache, 0)
  | none =>
    match env ("_dmarc." ++ domain) with
    | .ans records =>
      if records.any (fun r => PyStr.containsSub (PyStr.lower r) "v=dmarc1") then
        (true, setCache cache key true, 1)
      else (false, setCache cache key false, 1)
    | .err => (false, setCache cache key false, 1)

/-- The DKIM selector list of `url_analyzer.has_dkim`. -/
def DKIM_SELECTORS : List String := ["default", "selector1", "selector2"]

/-- The selector loop of `has_dkim`: try each selector in order, one query
per selector; a match short-circuits with `true`, an exception or a
non-matching answer moves on.  Returns (found, queries issued). -/
def dkimScan (env : String → DNSResult) (domain : String) :
    List String → Bool × Nat
  | [] => (false, 0)
  | s :: rest =>
    match env (s ++ "._domainkey." ++ domain) with
    | .ans records =>
      if records.any (fun r => PyStr.containsSub (PyStr.lower r) "v=dkim1") then
        (true, 1)
      else
        let t := dkimScan env domain rest
        (t.1, t.2 + 1)
    | .err =>
      let t := dkimScan env domain rest
      (t.1, t.2 + 1)

/-- Embeds `has_dkim`: cached scan over the fixed selector list. -/
def has_dkim (env : String → DNSResult) (cache : DnsCache) (domain : String) :
    Bool × DnsCache × Nat :=
  let key := "dkim_" ++ domain
  match getCache cache key with
  | some cached => (cached, cache, 0)
  | none =>
    let t := dkimScan env domain DKIM_SELECTORS
    (t.1, setCache cache key t.1, t.2)

end UrlAnalyzer

namespace ScoreCalculator

/-- Embeds `get_risk_level` of `phishingtool/score_calculator.py` (scores as exact
rationals). -/
def get_risk_level (score : ℚ) : String :=
  if 8 ≤ score then "CRITICAL"
  else if 6 ≤ score then "HIGH"
  else if 4 ≤ score then "MEDIUM"
  else if 2 ≤ score then "LOW"
  else "MINIMAL"

/-- Numeric rank of a risk level, for stating monotonicity. -/
def riskRank : String → Nat
  | "MINIMAL" => 0
  | "LOW" => 1
  | "MEDIUM" => 2
  | "HIGH" => 3
  | "CRITICAL" => 4
  | _ => 5

/-- The twelve component scores entering the weighted combination of
`calculate_comprehensive_phishing_score` (each produced by a
`calculate_*_score` helper that caps its result at 10). -/
structure ComponentScores where
  attachment_score : ℚ
  auth_score : ℚ
  header_score : ℚ
  domain_score : ℚ
  url_score : ℚ
  infrastructure_score : ℚ
  mime_score : ℚ
  timing_score : ℚ
  metadata_score : ℚ
  ip_score : ℚ
  url_security_score : ℚ
  transformer_score : ℚ

/-- The weighted overall score of
`calculate_comprehensive_phishing_score` (source comment: "Total weight =
100%"), float literals as exact rationals. -/
def overall_score (c : ComponentScores) : ℚ :=
  c.attachment_score * (8 / 100) +
  c.auth_score * (12 / 100) +
  c.header_score * (8 / 100) +
  c.domain_score * (10 / 100) +
  c.url_score * (8 / 100) +
  c.infrastructure_score * (8 / 100) +
  c.mime_score * (6 / 100) +
  c.timing_score * (6 / 100) +
  c.metadata_score * (8 / 100) +
  c.ip_score * (7 / 100) +
  c.url_security_score * (10 / 100) +
  c.transformer_score * (3 / 100)

/-- The sum of the twelve weights used by `overall_score`. -/
def weight_total : ℚ :=
  8 / 100 + 12 / 100 + 8 / 100 + 10 / 100 + 8 / 100 + 8 / 100 +
  6 / 100 + 6 / 100 + 8 / 100 + 7 / 100 + 10 / 100 + 3 / 100

/-- Every component score lies in the band `[0, 10]` (each
`calculate_*_score` helper accumulates non-negative increments and ends
with `min(score, 10)`, and errors yield 0). -/
def InBand (c : ComponentScores) : Prop :=
  (0 ≤ c.attachment_score ∧ c.attachment_score ≤ 10) ∧
  (0 ≤ c.auth_score ∧ c.auth_score ≤ 10) ∧
  (0 ≤ c.header_score ∧ c.header_score ≤ 10) ∧
  (0 ≤ c.domain_score ∧ c.domain_score ≤ 10) ∧
  (0 ≤ c.url_score ∧ c.url_score ≤ 10) ∧
  (0 ≤ c.infrastructure_score ∧ c.infrastructure_score ≤ 10) ∧
  (0 ≤ c.mime_score ∧ c.mime_score ≤ 10) ∧
  (0 ≤ c.timing_score ∧ c.timing_score ≤ 10) ∧
  (0 ≤ c.metadata_score ∧ c.metadata_score ≤ 10) ∧
  (0 ≤ c.ip_score ∧ c.ip_score ≤ 10) ∧
  (0 ≤ c.url_security_score ∧ c.url_security_score ≤ 10) ∧
  (0 ≤ c.transformer_score ∧ c.transformer_score ≤ 10)

end ScoreCalculator

/-- The double-extension predicate exactly as the claim words it: at least
three dot-separated segments, and the final segment (lower-cased, with a
leading dot) is a dangerous executable extension. -/
def claimDoubleExtension (filename : String) : Bool :=
  let segments := PyStr.split '.' (PyStr.lower filename)
  3 ≤ segments.length &&
    AttachmentAnalyzer.DANGEROUS_EXTENSIONS.contains ("." ++ segments.getLastD "")

namespace MainFlow

/-- The `all_results` wiring of `main.py`, projected onto the flags that
`scoring.calculate_risk_score` reads: authentication, domain, attachment
and infrastructure flags come from the corresponding module runners, while
the URL, header, timing and MIME module outcomes enter through their
module-level suspicious flags. -/
def all_results_input (auth : AuthChecks.AuthResults)
    (dom : DomainChecks.DomainResults) (url_suspicious : Bool)
    (att : AttachmentChecks.AttachmentResults)
    (infra : InfrastructureChecks.InfraResults)
    (header_suspicious timing_suspicious suspicious_encoding : Bool) :
    Scoring.ScoreInput :=
  { spf_fail := auth.spf_fail
    dkim_fail := auth.dkim_fail
    dmarc_fail := auth.dmarc_fail
    domain_suspicious := dom.domain_suspicious
    url_suspicious := url_suspicious
    attachment_suspicious := att.attachment_suspicious
    infrastructure_suspicious := infra.infrastructure_suspicious
    header_suspicious := header_suspicious
    timing_suspicious := timing_suspicious
    suspicious_encoding := suspicious_encoding }

end MainFlow

/-- C2: for every combination of module signal records, the trigger-weighted
aggregator's score is the sum of the fixed weights over exactly the true
flags, capped at 100; the verdict is PHISHING iff the score is at least 70,
SUSPICIOUS iff it is in [40, 70), SAFE iff it is below 40; and the triggers
list is exactly the names of the fired rules in evaluation order. -/
theorem c2_trigger_weighted_aggregator :
    ∀ a b c d e f g h i j : Bool,
      (Scoring.calculate_risk_score ⟨a, b, c, d, e, f, g, h, i, j⟩).score =
        min (Scoring.specWeightSum ⟨a, b, c, d, e, f, g, h, i, j⟩) 100 ∧
      ((Scoring.calculate_risk_score ⟨a, b, c, d, e, f, g, h, i, j⟩).verdict = "PHISHING" ↔
        70 ≤ (Scoring.calculate_risk_score ⟨a, b, c, d, e, f, g, h, i, j⟩).score) ∧
      ((Scoring.calculate_risk_score ⟨a, b, c, d, e, f, g, h, i, j⟩).verdict = "SUSPICIOUS" ↔
        40 ≤ (Scoring.calculate_risk_score ⟨a, b, c, d, e, f, g, h, i, j⟩).score ∧
          (Scoring.calculate_risk_score ⟨a, b, c, d, e, f, g, h, i, j⟩).score < 70) ∧
      ((Scoring.calculate_risk_score ⟨a, b, c, d, e, f, g, h, i, j⟩).verdict = "SAFE" ↔
        (Scoring.calculate_risk_score ⟨a, b, c, d, e, f, g, h, i, j⟩).score < 40) ∧
      (Scoring.calculate_risk_score ⟨a, b, c, d, e, f, g, h, i, j⟩).triggers =
        Scoring.specTriggers ⟨a, b, c, d, e, f, g, h, i, j⟩ := by
  decide

/-- C3: `invoice.pdf.exe` scores at least 65 (dangerous extension 45 plus
double extension 20) with verdict MALICIOUS for any content and declared
MIME type; `report.pdf` with MIME `application/pdf` and size at most 20 MB
scores 0 with verdict SAFE. -/
theorem c3_attachment_scoring_examples :
    (∀ (file_bytes : List Nat) (mime_type : String),
      65 ≤ (AttachmentAnalyzer.analyze_attachment "invoice.pdf.exe" file_bytes
        mime_type).risk_score ∧
      (AttachmentAnalyzer.analyze_attachment "invoice.pdf.exe" file_bytes
        mime_type).verdict = "MALICIOUS") ∧
    (∀ file_bytes : List Nat,
      file_bytes.length ≤ AttachmentAnalyzer.MAX_FILE_SIZE_BYTES →
      (AttachmentAnalyzer.analyze_attachment "report.pdf" file_bytes
        "application/pdf").risk_score = 0 ∧
      (AttachmentAnalyzer.analyze_attachment "report.pdf" file_bytes
        "application/pdf").verdict = "SAFE") := by
  constructor
  · intro file_bytes mime_type
    have hd : AttachmentAnalyzer.check_dangerous_extension "invoice.pdf.exe" = true := by decide
    have hdd : AttachmentAnalyzer.check_double_extension "invoice.pdf.exe" = true := by decide
    have hmac : AttachmentAnalyzer.check_macro_extension "invoice.pdf.exe" = false := by decide
    simp only [AttachmentAnalyzer.analyze_attachment, hd, hdd, hmac,
      AttachmentAnalyzer.calculate_risk_score, AttachmentAnalyzer.get_verdict]
    by_cases hmm : AttachmentAnalyzer.check_mime_mismatch "invoice.pdf.exe" mime_type = true <;>
    by_cases hl : AttachmentAnalyzer.MAX_FILE_SIZE_BYTES < file_bytes.length <;>
      simp [hmm, hl, AttachmentAnalyzer.SCORE_DANGEROUS_EXTENSION,
        AttachmentAnalyzer.SCORE_DOUBLE_EXTENSION, AttachmentAnalyzer.SCORE_MIME_MISMATCH,
        AttachmentAnalyzer.SCORE_LARGE_FILE, AttachmentAnalyzer.MAX_RISK_SCORE]
  · intro file_bytes hsize
    have hd : AttachmentAnalyzer.check_dangerous_extension "report.pdf" = false := by decide
    have hdd : AttachmentAnalyzer.check_double_extension "report.pdf" = false := by decide
    have hmac : AttachmentAnalyzer.check_macro_extension "report.pdf" = false := by decide
    have hmm : AttachmentAnalyzer.check_mime_mismatch "report.pdf" "application/pdf" = false := by
      decide
    have hl : ¬ (AttachmentAnalyzer.MAX_FILE_SIZE_BYTES < file_bytes.length) := by
      omega
    simp [AttachmentAnalyzer.analyze_attachment, hd, hdd, hmac, hmm, hl,
      AttachmentAnalyzer.calculate_risk_score, AttachmentAnalyzer.get_verdict,
      AttachmentAnalyzer.MAX_RISK_SCORE]

/-- Witness for C3 at a concrete attachment: empty content, which is at
most 20 MB. -/
theorem c3_attachment_scoring_examples_witness :
    (AttachmentAnalyzer.analyze_attachment "report.pdf" []
      "application/pdf").risk_score = 0 ∧
    (AttachmentAnalyzer.analyze_attachment "invoice.pdf.exe" []
      "application/octet-stream").verdict = "MALICIOUS" :=
  ⟨(c3_attachment_scoring_examples.2 [] (by decide)).1,
   (c3_attachment_scoring_examples.1 [] "application/octet-stream").2⟩

/-- C4 counterexample: `attachment_checks.has_double_extension` flags
`archive.tar.gz` although its final segment is not a dangerous executable
extension, so the claimed iff fails for that variant of the flag. -/
theorem c4_double_extension_counterexample :
    AttachmentChecks.has_double_extension (some "archive.tar.gz") = true ∧
    claimDoubleExtension "archive.tar.gz" = false ∧
    AttachmentAnalyzer.check_double_extension "archive.tar.gz" = false := by
  decide

/-- C4 amended: the analyzer variant `check_double_extension` satisfies the
claimed characterisation (≥ 3 segments and dangerous final segment), while
the `attachment_checks` variant `has_double_extension` flags every truthy
filename with more than two dot-separated segments, regardless of the final
segment. -/
theorem c4_double_extension_amended :
    (∀ filename : String,
      AttachmentAnalyzer.check_double_extension filename =
        claimDoubleExtension filename) ∧
    (∀ filename : String,
      AttachmentChecks.has_double_extension (some filename) =
        (filename ≠ "" && 2 < (PyStr.split '.' filename).length)) := by
  constructor
  · intro filename
    simp only [AttachmentAnalyzer.check_double_extension, claimDoubleExtension]
    rcases Nat.lt_or_ge (PyStr.split '.' (PyStr.lower filename)).length 3 with h | h
    · simp [h, Nat.not_le.mpr h]
    · simp [Nat.not_lt.mpr h, h]
  · intro filename
    by_cases h : filename = "" <;> simp [AttachmentChecks.has_double_extension, h]

/-- C6: each of the three mismatch flags built by `extract_metadata` is
false whenever the corresponding derived domain or the From domain is
absent, and is true only when both sides are present and differ. -/
theorem c6_mismatch_flags_never_true_on_missing :
    ∀ m : Parsing.Metadata,
      ((m.reply_to_domain = none ∨ m.from_domain = none) →
        Parsing.reply_to_mismatch m = false) ∧
      (Parsing.reply_to_mismatch m = true →
        ∃ a b, m.reply_to_domain = some a ∧ m.from_domain = some b ∧ a ≠ b) ∧
      ((m.return_path_domain = none ∨ m.from_domain = none) →
        Parsing.return_path_mismatch m = false) ∧
      (Parsing.return_path_mismatch m = true →
        ∃ a b, m.return_path_domain = some a ∧ m.from_domain = some b ∧ a ≠ b) ∧
      ((m.message_id_domain = none ∨ m.from_domain = none) →
        Parsing.message_id_mismatch m = false) ∧
      (Parsing.message_id_mismatch m = true →
        ∃ a b, m.message_id_domain = some a ∧ m.from_domain = some b ∧ a ≠ b) := by
  have key : ∀ d f : Option String,
      ((d = none ∨ f = none) → Parsing.mismatchFlag d f = false) ∧
      (Parsing.mismatchFlag d f = true →
        ∃ a b, d = some a ∧ f = some b ∧ a ≠ b) := by
    intro d f
    cases d <;> cases f <;> simp [Parsing.mismatchFlag]
  intro m
  exact ⟨(key _ _).1, (key _ _).2, (key _ _).1, (key _ _).2,
    (key _ _).1, (key _ _).2⟩

/-- Witness for C6 at a concrete metadata record with an absent Reply-To
domain and a truthy mismatch pair for Message-ID. -/
theorem c6_mismatch_flags_never_true_on_missing_witness :
    Parsing.reply_to_mismatch
      ⟨some "good.com", none, none, some "evil.com", [], none, ⟨none, none, none⟩⟩ = false ∧
    (∃ a b,
      (some "evil.com" : Option String) = some a ∧
      (some "good.com" : Option String) = some b ∧ a ≠ b) :=
  ⟨(c6_mismatch_flags_never_true_on_missing
      ⟨some "good.com", none, none, some "evil.com", [], none, ⟨none, none, none⟩⟩).1
      (Or.inl rfl),
   (c6_mismatch_flags_never_true_on_missing
      ⟨some "good.com", none, none, some "evil.com", [], none, ⟨none, none, none⟩⟩).2.2.2.2.2
      (by decide)⟩

/-- C8: when the underlying DNS queries fail with a resolver exception, the
SPF/DMARC/DKIM presence checks return the negative result `false` (no
exception escapes: the embedded functions are total and produce a boolean),
and the negative result is written to the cache under that check's key. -/
theorem c8_resolver_failure_negative_cached
    (env : String → UrlAnalyzer.DNSResult) (cache : UrlAnalyzer.DnsCache)
    (domain : String)
    (hspf : env domain = .err)
    (hdmarc : env ("_dmarc." ++ domain) = .err)
    (hdkim : ∀ s ∈ UrlAnalyzer.DKIM_SELECTORS,
      env (s ++ "._domainkey." ++ domain) = .err)
    (cspf : UrlAnalyzer.getCache cache ("spf_" ++ domain) = none)
    (cdmarc : UrlAnalyzer.getCache cache ("dmarc_" ++ domain) = none)
    (cdkim : UrlAnalyzer.getCache cache ("dkim_" ++ domain) = none) :
    (UrlAnalyzer.has_spf env cache domain).1 = false ∧
    UrlAnalyzer.getCache (UrlAnalyzer.has_spf env cache domain).2.1
      ("spf_" ++ domain) = some false ∧
    (UrlAnalyzer.has_dmarc env cache domain).1 = false ∧
    UrlAnalyzer.getCache (UrlAnalyzer.has_dmarc env cache domain).2.1
      ("dmarc_" ++ domain) = some false ∧
    (UrlAnalyzer.has_dkim env cache domain).1 = false ∧
    UrlAnalyzer.getCache (UrlAnalyzer.has_dkim env cache domain).2.1
      ("dkim_" ++ domain) = some false := by
  simp only [UrlAnalyzer.getCache] at cspf cdmarc cdkim
  have h1 : env ("default._domainkey." ++ domain) = .err := by
    simpa using hdkim "default" (by simp [UrlAnalyzer.DKIM_SELECTORS])
  have h2 : env ("selector1._domainkey." ++ domain) = .err := by
    simpa using hdkim "selector1" (by simp [UrlAnalyzer.DKIM_SELECTORS])
  have h3 : env ("selector2._domainkey." ++ domain) = .err := by
    simpa using hdkim "selector2" (by simp [UrlAnalyzer.DKIM_SELECTORS])
  refine ⟨?_, ?_, ?_, ?_, ?_, ?_⟩ <;>
    simp [UrlAnalyzer.has_spf, UrlAnalyzer.has_dmarc, UrlAnalyzer.has_dkim,
      UrlAnalyzer.dkimScan, UrlAnalyzer.DKIM_SELECTORS, hspf, hdmarc,
      h1, h2, h3, cspf, cdmarc, cdkim, List.lookup,
      UrlAnalyzer.getCache, UrlAnalyzer.setCache]

/-- Witness for C8: a concrete failing environment, an empty cache and a
concrete domain. -/
theorem c8_resolver_failure_negative_cached_witness :
    (UrlAnalyzer.has_spf (fun _ => .err) [] "example.com").1 = false ∧
    UrlAnalyzer.getCache
      (UrlAnalyzer.has_spf (fun _ => .err) [] "example.com").2.1
      ("spf_" ++ "example.com") = some false ∧
    (UrlAnalyzer.has_dmarc (fun _ => .err) [] "example.com").1 = false ∧
    UrlAnalyzer.getCache
      (UrlAnalyzer.has_dmarc (fun _ => .err) [] "example.com").2.1
      ("dmarc_" ++ "example.com") = some false ∧
    (UrlAnalyzer.has_dkim (fun _ => .err) [] "example.com").1 = false ∧
    UrlAnalyzer.getCache
      (UrlAnalyzer.has_dkim (fun _ => .err) [] "example.com").2.1
      ("dkim_" ++ "example.com") = some false :=
  c8_resolver_failure_negative_cached (fun _ => .err) [] "example.com"
    rfl rfl (fun _ _ => rfl) rfl rfl rfl

/-- C9: after any completed `has_spf` call the cache holds an entry for the
`spf_<domain>` key whose value is the call's result, and a second
sequential call for the same domain returns that cached value, leaves the
cache unchanged, and issues zero underlying DNS queries. -/
theorem c9_spf_cache_hit_on_second_call :
    ∀ (env : String → UrlAnalyzer.DNSResult) (cache : UrlAnalyzer.DnsCache)
      (domain : String),
      UrlAnalyzer.getCache (UrlAnalyzer.has_spf env cache domain).2.1
        ("spf_" ++ domain) = some (UrlAnalyzer.has_spf env cache domain).1 ∧
      UrlAnalyzer.has_spf env (UrlAnalyzer.has_spf env cache domain).2.1 domain =
        ((UrlAnalyzer.has_spf env cache domain).1,
         (UrlAnalyzer.has_spf env cache domain).2.1, 0) := by
  intro env cache domain
  unfold UrlAnalyzer.has_spf
  simp only [UrlAnalyzer.getCache, UrlAnalyzer.setCache]
  cases hc : List.lookup ("spf_" ++ domain) cache with
  | some cached => simp [hc]
  | none =>
    cases henv : env domain with
    | err => simp [hc, henv, List.lookup]
    | ans records =>
      by_cases hrec :
          records.any (fun r => PyStr.containsSub (PyStr.lower r) "v=spf1") = true <;>
        simp [hc, henv, hrec, List.lookup]

/-- Reversing the timestamp list does not change the total delivery time
(the source takes the absolute difference of the first and last entries). -/
theorem total_delivery_time_reverse (ts : List Int) :
    TimingChecks.total_delivery_time ts.reverse =
      TimingChecks.total_delivery_time ts := by
  simp only [TimingChecks.total_delivery_time, List.length_reverse]
  split_ifs with h
  · rfl
  · simp only [List.headD_eq_head?_getD, List.getLastD_eq_getLast?,
      List.head?_reverse, List.getLast?_reverse]
    congr 1
    omega

/-- C10: the timing module's `suspicious_delivery_time` flag is invariant
under reversing the routing-hop list (for any hop-timestamp parse), and
when fewer than two timestamps parse, `time_travel_detected`,
`suspicious_delivery_time` and `timing_suspicious` are all false. -/
theorem c10_timing_reversal_and_too_few_timestamps :
    ∀ (parseTs : String → Option Int) (received_headers : List String),
      ((TimingChecks.run_timing_checks parseTs
          received_headers.reverse).suspicious_delivery_time =
        (TimingChecks.run_timing_checks parseTs
          received_headers).suspicious_delivery_time) ∧
      ((TimingChecks.extract_timestamps parseTs received_headers).length < 2 →
        (TimingChecks.run_timing_checks parseTs
          received_headers).time_travel_detected = false ∧
        (TimingChecks.run_timing_checks parseTs
          received_headers).suspicious_delivery_time = false ∧
        (TimingChecks.run_timing_checks parseTs
          received_headers).timing_suspicious = false) := by
  intro parseTs received_headers
  have hrev : TimingChecks.extract_timestamps parseTs received_headers.reverse =
      (TimingChecks.extract_timestamps parseTs received_headers).reverse := by
    simp [TimingChecks.extract_timestamps]
  constructor
  · simp only [TimingChecks.run_timing_checks, hrev, total_delivery_time_reverse]
  · intro h
    simp [TimingChecks.run_timing_checks, TimingChecks.has_time_travel,
      TimingChecks.total_delivery_time, TimingChecks.suspicious_delivery, h]

/-- Witness for C10 at a concrete parse and hop list with a single parsed
timestamp. -/
theorem c10_timing_reversal_and_too_few_timestamps_witness :
    (TimingChecks.run_timing_checks
      (fun s => if s = "hop0" then some 100 else none)
      ["hop0", "noise"]).timing_suspicious = false :=
  ((c10_timing_reversal_and_too_few_timestamps
      (fun s => if s = "hop0" then some 100 else none)
      ["hop0", "noise"]).2 (by decide)).2.2

/-- C7 counterexample: the twelve weights of the weighted-component
aggregator sum to 0.94, not to 1.00 as the claim asserts. -/
theorem c7_weight_total_counterexample :
    ScoreCalculator.weight_total = 94 / 100 ∧
    ScoreCalculator.weight_total ≠ 1 := by
  constructor <;> norm_num [ScoreCalculator.weight_total]

/-- C7 amended: with every component score in `[0, 10]`, the overall score
lies in `[0, 9.4] ⊆ [0, 10]` (the weights sum to 0.94, not 1.00), and the
risk level is the monotone banded function of the score: at least 8
CRITICAL, at least 6 HIGH, at least 4 MEDIUM, at least 2 LOW, else
MINIMAL. -/
theorem c7_weighted_component_aggregator_amended :
    (∀ c : ScoreCalculator.ComponentScores, ScoreCalculator.InBand c →
      0 ≤ ScoreCalculator.overall_score c ∧
      ScoreCalculator.overall_score c ≤ 94 / 10 ∧
      ScoreCalculator.overall_score c ≤ 10) ∧
    ScoreCalculator.weight_total = 94 / 100 ∧
    (∀ s t : ℚ, s ≤ t →
      ScoreCalculator.riskRank (ScoreCalculator.get_risk_level s) ≤
        ScoreCalculator.riskRank (ScoreCalculator.get_risk_level t)) ∧
    (∀ s : ℚ,
      (8 ≤ s → ScoreCalculator.get_risk_level s = "CRITICAL") ∧
      (6 ≤ s ∧ s < 8 → ScoreCalculator.get_risk_level s = "HIGH") ∧
      (4 ≤ s ∧ s < 6 → ScoreCalculator.get_risk_level s = "MEDIUM") ∧
      (2 ≤ s ∧ s < 4 → ScoreCalculator.get_risk_level s = "LOW") ∧
      (s < 2 → ScoreCalculator.get_risk_level s = "MINIMAL")) := by
  refine ⟨?_, by norm_num [ScoreCalculator.weight_total], ?_, ?_⟩
  · rintro c ⟨⟨a0, a1⟩, ⟨b0, b1⟩, ⟨c0, c1⟩, ⟨d0, d1⟩, ⟨e0, e1⟩, ⟨f0, f1⟩,
      ⟨g0, g1⟩, ⟨h0, h1⟩, ⟨i0, i1⟩, ⟨j0, j1⟩, ⟨k0, k1⟩, ⟨l0, l1⟩⟩
    unfold ScoreCalculator.overall_score
    refine ⟨by positivity, by nlinarith, by nlinarith⟩
  · intro s t hst
    unfold ScoreCalculator.get_risk_level
    split_ifs <;> simp [ScoreCalculator.riskRank] <;> linarith
  · intro s
    refine ⟨fun h => ?_, fun h => ?_, fun h => ?_, fun h => ?_, fun h => ?_⟩ <;>
      unfold ScoreCalculator.get_risk_level <;>
      split_ifs <;> first | rfl | linarith

/-- Witness for C7 at a concrete component vector and concrete scores. -/
theorem c7_weighted_component_aggregator_amended_witness :
    (0 ≤ ScoreCalculator.overall_score ⟨10, 10, 10, 10, 10, 10, 10, 10, 10, 10, 10, 10⟩ ∧
      ScoreCalculator.overall_score ⟨10, 10, 10, 10, 10, 10, 10, 10, 10, 10, 10, 10⟩ ≤ 10) ∧
    ScoreCalculator.riskRank (ScoreCalculator.get_risk_level 3) ≤
      ScoreCalculator.riskRank (ScoreCalculator.get_risk_level 7) ∧
    ScoreCalculator.get_risk_level 9 = "CRITICAL" :=
  ⟨⟨(c7_weighted_component_aggregator_amended.1
      ⟨10, 10, 10, 10, 10, 10, 10, 10, 10, 10, 10, 10⟩
      (by norm_num [ScoreCalculator.InBand])).1,
    (c7_weighted_component_aggregator_amended.1
      ⟨10, 10, 10, 10, 10, 10, 10, 10, 10, 10, 10, 10⟩
      (by norm_num [ScoreCalculator.InBand])).2.2⟩,
   c7_weighted_component_aggregator_amended.2.2.1 3 7 (by norm_num),
   (c7_weighted_component_aggregator_amended.2.2.2 9).1 (by norm_num)⟩

/-- C1: for any message whose Authentication-Results parse to
spf=fail, dkim=pass, dmarc=fail, whose Reply-To domain is present and
differs from the present From domain, with exactly one attachment named
`form.docm` and 20 Received hops: the authentication signal fails SPF and
DMARC, the domain signal reports the Reply-To mismatch, the attachment
analyzer rates `form.docm` at least 40 (MALICIOUS), the infrastructure
signal reports a relay anomaly, and the trigger-weighted aggregator scores
at least 80 with verdict PHISHING — whatever the remaining module
outcomes, attachment bytes and declared MIME type are. -/
theorem c1_end_to_end_phishing_scenario
    (m : Parsing.Metadata) (attachments : List AttachmentChecks.Attachment)
    (file_bytes : List Nat) (att_mime : String) (att_size : Nat)
    (hasPrivateIpFn : List String → Bool)
    (url_suspicious header_suspicious timing_suspicious suspicious_encoding : Bool)
    (rd fd : String)
    (hauth : m.authentication = ⟨some "fail", some "pass", some "fail"⟩)
    (hrd : m.reply_to_domain = some rd) (hfd : m.from_domain = some fd)
    (hrdne : rd ≠ "") (hfdne : fd ≠ "") (hne : rd ≠ fd)
    (hatt : attachments = [⟨some "form.docm", att_mime, att_size⟩])
    (hhops : m.received_headers.length = 20) :
    (AuthChecks.run_auth_checks m.authentication).spf_fail = true ∧
    (AuthChecks.run_auth_checks m.authentication).dmarc_fail = true ∧
    (DomainChecks.run_domain_checks m).reply_to_mismatch = true ∧
    40 ≤ (AttachmentAnalyzer.analyze_attachment "form.docm" file_bytes
      att_mime).risk_score ∧
    (AttachmentAnalyzer.analyze_attachment "form.docm" file_bytes
      att_mime).verdict = "MALICIOUS" ∧
    (InfrastructureChecks.run_infrastructure_checks hasPrivateIpFn m).relay_anomaly
      = true ∧
    80 ≤ (Scoring.calculate_risk_score (MainFlow.all_results_input
      (AuthChecks.run_auth_checks m.authentication)
      (DomainChecks.run_domain_checks m) url_suspicious
      (AttachmentChecks.run_attachment_checks attachments)
      (InfrastructureChecks.run_infrastructure_checks hasPrivateIpFn m)
      header_suspicious timing_suspicious suspicious_encoding)).score ∧
    (Scoring.calculate_risk_score (MainFlow.all_results_input
      (AuthChecks.run_auth_checks m.authentication)
      (DomainChecks.run_domain_checks m) url_suspicious
      (AttachmentChecks.run_attachment_checks attachments)
      (InfrastructureChecks.run_infrastructure_checks hasPrivateIpFn m)
      header_suspicious timing_suspicious suspicious_encoding)).verdict
      = "PHISHING" := by
  have hspf : (AuthChecks.run_auth_checks m.authentication).spf_fail = true := by
    rw [hauth]; decide
  have hdkim : (AuthChecks.run_auth_checks m.authentication).dkim_fail = false := by
    rw [hauth]; decide
  have hdmarc : (AuthChecks.run_auth_checks m.authentication).dmarc_fail = true := by
    rw [hauth]; decide
  have hmm : Parsing.reply_to_mismatch m = true := by
    simp [Parsing.reply_to_mismatch, Parsing.mismatchFlag, hrd, hfd, hrdne, hfdne, hne]
  have hdommm : (DomainChecks.run_domain_checks m).reply_to_mismatch = true := by
    simp [DomainChecks.run_domain_checks, hmm]
  have hdom : (DomainChecks.run_domain_checks m).domain_suspicious = true := by
    simp [DomainChecks.run_domain_checks, hmm]
  have hext : AttachmentChecks.get_extension (some "form.docm") = some ".docm" := by
    decide
  have hasusp : (AttachmentChecks.run_attachment_checks attachments).attachment_suspicious
      = true := by
    rw [hatt]
    simp [AttachmentChecks.run_attachment_checks, AttachmentChecks.runStep, hext]
    decide
  have hrelay : (InfrastructureChecks.run_infrastructure_checks hasPrivateIpFn
      m).relay_anomaly = true := by
    simp [InfrastructureChecks.run_infrastructure_checks,
      InfrastructureChecks.relay_anomaly, Parsing.received_count, hhops]
  have hinfra : (InfrastructureChecks.run_infrastructure_checks hasPrivateIpFn
      m).infrastructure_suspicious = true := by
    simp [InfrastructureChecks.run_infrastructure_checks,
      InfrastructureChecks.relay_anomaly, Parsing.received_count, hhops]
  have hattsc : 40 ≤ (AttachmentAnalyzer.analyze_attachment "form.docm" file_bytes
        att_mime).risk_score ∧
      (AttachmentAnalyzer.analyze_attachment "form.docm" file_bytes
        att_mime).verdict = "MALICIOUS" := by
    have hd : AttachmentAnalyzer.check_dangerous_extension "form.docm" = false := by decide
    have hdd : AttachmentAnalyzer.check_double_extension "form.docm" = false := by decide
    have hmac : AttachmentAnalyzer.check_macro_extension "form.docm" = true := by decide
    simp only [AttachmentAnalyzer.analyze_attachment, hd, hdd, hmac,
      AttachmentAnalyzer.calculate_risk_score, AttachmentAnalyzer.get_verdict]
    by_cases hmm2 : AttachmentAnalyzer.check_mime_mismatch "form.docm" att_mime = true <;>
    by_cases hl : AttachmentAnalyzer.MAX_FILE_SIZE_BYTES < file_bytes.length <;>
      simp [hmm2, hl, AttachmentAnalyzer.SCORE_MACRO_EXTENSION,
        AttachmentAnalyzer.SCORE_MIME_MISMATCH, AttachmentAnalyzer.SCORE_LARGE_FILE,
        AttachmentAnalyzer.MAX_RISK_SCORE]
  have hin : MainFlow.all_results_input
      (AuthChecks.run_auth_checks m.authentication)
      (DomainChecks.run_domain_checks m) url_suspicious
      (AttachmentChecks.run_attachment_checks attachments)
      (InfrastructureChecks.run_infrastructure_checks hasPrivateIpFn m)
      header_suspicious timing_suspicious suspicious_encoding =
      ⟨true, false, true, true, url_suspicious, true, true,
       header_suspicious, timing_suspicious, suspicious_encoding⟩ := by
    simp [MainFlow.all_results_input, hspf, hdkim, hdmarc, hdom, hasusp, hinfra]
  refine ⟨hspf, hdmarc, hdommm, hattsc.1, hattsc.2, hrelay, ?_, ?_⟩ <;>
    rw [hin] <;>
    cases url_suspicious <;> cases header_suspicious <;>
    cases timing_suspicious <;> cases suspicious_encoding <;> decide

/-- Witness for C1: a concrete metadata view with 20 hops, mismatching
Reply-To/From domains, failing SPF/DMARC, and a single `form.docm`
attachment. -/
theorem c1_end_to_end_phishing_scenario_witness :
    80 ≤ (Scoring.calculate_risk_score (MainFlow.all_results_input
      (AuthChecks.run_auth_checks ⟨some "fail", some "pass", some "fail"⟩)
      (DomainChecks.run_domain_checks ⟨some "good.com", some "evil.com", none,
        none, List.replicate 20 "hop", none,
        ⟨some "fail", some "pass", some "fail"⟩⟩) false
      (AttachmentChecks.run_attachment_checks
        [⟨some "form.docm", "application/octet-stream", 0⟩])
      (InfrastructureChecks.run_infrastructure_checks (fun _ => false)
        ⟨some "good.com", some "evil.com", none, none,
         List.replicate 20 "hop", none,
         ⟨some "fail", some "pass", some "fail"⟩⟩)
      false false false)).score ∧
    (Scoring.calculate_risk_score (MainFlow.all_results_input
      (AuthChecks.run_auth_checks ⟨some "fail", some "pass", some "fail"⟩)
      (DomainChecks.run_domain_checks ⟨some "good.com", some "evil.com", none,
        none, List.replicate 20 "hop", none,
        ⟨some "fail", some "pass", some "fail"⟩⟩) false
      (AttachmentChecks.run_attachment_checks
        [⟨some "form.docm", "application/octet-stream", 0⟩])
      (InfrastructureChecks.run_infrastructure_checks (fun _ => false)
        ⟨some "good.com", some "evil.com", none, none,
         List.replicate 20 "hop", none,
         ⟨some "fail", some "pass", some "fail"⟩⟩)
      false false false)).verdict = "PHISHING" := by
  have h := c1_end_to_end_phishing_scenario
    ⟨some "good.com", some "evil.com", none, none, List.replicate 20 "hop",
     none, ⟨some "fail", some "pass", some "fail"⟩⟩
    [⟨some "form.docm", "application/octet-stream", 0⟩]
    [] "application/octet-stream" 0 (fun _ => false) false false false false
    "evil.com" "good.com" rfl rfl rfl (by decide) (by decide) (by decide)
    rfl (by decide)
  exact ⟨h.2.2.2.2.2.2.1, h.2.2.2.2.2.2.2⟩

/-- Bridging the similarity threshold: for a non-degenerate pair, the
rational comparison `0.8 ≤ ratio` is the cross-multiplied comparison
`4 * den ≤ 5 * num`. -/
theorem ratio_threshold_iff (a b : String) (h : UrlAnalyzer.seqRatioDen a b ≠ 0) :
    (UrlAnalyzer.SIMILARITY_THRESHOLD ≤ UrlAnalyzer.ratioQ a b ↔
      4 * UrlAnalyzer.seqRatioDen a b ≤ 5 * UrlAnalyzer.seqRatioNum a b) := by
  unfold UrlAnalyzer.ratioQ UrlAnalyzer.SIMILARITY_THRESHOLD
  rw [if_neg h]
  have hD : (0 : ℚ) < (UrlAnalyzer.seqRatioDen a b : ℚ) := by
    exact_mod_cast Nat.pos_of_ne_zero h
  rw [div_le_div_iff₀ (by norm_num) hD, mul_comm (UrlAnalyzer.seqRatioNum a b : ℚ) 5]
  exact_mod_cast Iff.rfl

/-- Characterisation of `detect_lookalike`'s best-tracking fold: starting
from a state whose denominator is positive and whose numerator is zero when
no match is recorded, the final state records a match of ratio at least the
threshold iff the initial state already did, or some list entry passes the
length-difference guard with ratio at least the threshold. -/
theorem bestStep_fold_spec (eff : String) :
    ∀ (l : List String) (bn bd : Nat) (bm : Option String),
      0 < bd → (bm = none → bn = 0) →
      (∀ t ∈ l, 0 < UrlAnalyzer.seqRatioDen eff t) →
      (((l.foldl (UrlAnalyzer.bestStep eff) (bn, bd, bm)).2.2.isSome = true ∧
        4 * (l.foldl (UrlAnalyzer.bestStep eff) (bn, bd, bm)).2.1 ≤
          5 * (l.foldl (UrlAnalyzer.bestStep eff) (bn, bd, bm)).1) ↔
       ((bm.isSome = true ∧ 4 * bd ≤ 5 * bn) ∨
        ∃ t ∈ l, UrlAnalyzer.lenDiff eff t ≤ 3 ∧
          4 * UrlAnalyzer.seqRatioDen eff t ≤ 5 * UrlAnalyzer.seqRatioNum eff t)) := by
  intro l
  induction l with
  | nil =>
    intro bn bd bm hbd hinv hl
    simp
  | cons t rest ih =>
    intro bn bd bm hbd hinv hl
    have hdt : 0 < UrlAnalyzer.seqRatioDen eff t := hl t (by simp)
    have hlrest : ∀ u ∈ rest, 0 < UrlAnalyzer.seqRatioDen eff u :=
      fun u hu => hl u (by simp [hu])
    simp only [List.foldl_cons]
    by_cases hskip : 3 < UrlAnalyzer.lenDiff eff t
    · rw [show UrlAnalyzer.bestStep eff (bn, bd, bm) t = (bn, bd, bm) from by
        simp [UrlAnalyzer.bestStep, hskip]]
      rw [ih bn bd bm hbd hinv hlrest]
      constructor
      · rintro (h | ⟨u, hu, hc⟩)
        · exact Or.inl h
        · exact Or.inr ⟨u, by simp [hu], hc⟩
      · rintro (h | ⟨u, hu, hc⟩)
        · exact Or.inl h
        · rcases List.mem_cons.mp hu with rfl | hu2
          · exact absurd hc.1 (by omega)
          · exact Or.inr ⟨u, hu2, hc⟩
    · by_cases hcmp : bn * UrlAnalyzer.seqRatioDen eff t <
          UrlAnalyzer.seqRatioNum eff t * bd
      · rw [show UrlAnalyzer.bestStep eff (bn, bd, bm) t =
            (UrlAnalyzer.seqRatioNum eff t, UrlAnalyzer.seqRatioDen eff t, some t)
            from by simp [UrlAnalyzer.bestStep, hskip, hcmp]]
        rw [ih _ _ _ hdt (by simp) hlrest]
        constructor
        · rintro (⟨_, hge⟩ | ⟨u, hu, hc⟩)
          · exact Or.inr ⟨t, by simp, by omega, hge⟩
          · exact Or.inr ⟨u, by simp [hu], hc⟩
        · rintro (⟨hsome, hge0⟩ | ⟨u, hu, hc⟩)
          · left
            refine ⟨rfl, ?_⟩
            have h1 : (4 * UrlAnalyzer.seqRatioDen eff t) * bd <
                (5 * UrlAnalyzer.seqRatioNum eff t) * bd := by
              calc (4 * UrlAnalyzer.seqRatioDen eff t) * bd
                  = (4 * bd) * UrlAnalyzer.seqRatioDen eff t := by ring
                _ ≤ (5 * bn) * UrlAnalyzer.seqRatioDen eff t :=
                    Nat.mul_le_mul_right _ hge0
                _ = 5 * (bn * UrlAnalyzer.seqRatioDen eff t) := by ring
                _ < 5 * (UrlAnalyzer.seqRatioNum eff t * bd) := by omega
                _ = (5 * UrlAnalyzer.seqRatioNum eff t) * bd := by ring
            exact Nat.le_of_lt (Nat.lt_of_mul_lt_mul_right h1)
          · rcases List.mem_cons.mp hu with rfl | hu2
            · exact Or.inl ⟨rfl, hc.2⟩
            · exact Or.inr ⟨u, hu2, hc⟩
      · rw [show UrlAnalyzer.bestStep eff (bn, bd, bm) t = (bn, bd, bm) from by
          simp [UrlAnalyzer.bestStep, hskip, hcmp]]
        rw [ih bn bd bm hbd hinv hlrest]
        constructor
        · rintro (h | ⟨u, hu, hc⟩)
          · exact Or.inl h
          · exact Or.inr ⟨u, by simp [hu], hc⟩
        · rintro (h | ⟨u, hu, hc⟩)
          · exact Or.inl h
          · rcases List.mem_cons.mp hu with rfl | hu2
            · left
              have hle : UrlAnalyzer.seqRatioNum eff u * bd ≤ bn *
                  UrlAnalyzer.seqRatioDen eff u := Nat.le_of_not_lt hcmp
              have hbm : bm ≠ none := by
                intro hbmn
                have hbn0 : bn = 0 := hinv hbmn
                rw [hbn0, Nat.zero_mul] at hle
                have hN : UrlAnalyzer.seqRatioNum eff u = 0 := by
                  rcases Nat.mul_eq_zero.mp (Nat.le_zero.mp hle) with h0 | h0
                  · exact h0
                  · omega
                have hDpos : 0 < UrlAnalyzer.seqRatioDen eff u := hl u hu
                omega
              refine ⟨by cases bm <;> simp_all, ?_⟩
              have h1 : (4 * bd) * UrlAnalyzer.seqRatioDen eff u ≤
                  (5 * bn) * UrlAnalyzer.seqRatioDen eff u := by
                calc (4 * bd) * UrlAnalyzer.seqRatioDen eff u
                    = (4 * UrlAnalyzer.seqRatioDen eff u) * bd := by ring
                  _ ≤ (5 * UrlAnalyzer.seqRatioNum eff u) * bd := by
                      exact Nat.mul_le_mul_right _ hc.2
                  _ = 5 * (UrlAnalyzer.seqRatioNum eff u * bd) := by ring
                  _ ≤ 5 * (bn * UrlAnalyzer.seqRatioDen eff u) :=
                      Nat.mul_le_mul_left _ hle
                  _ = (5 * bn) * UrlAnalyzer.seqRatioDen eff u := by ring
              exact Nat.le_of_mul_le_mul_right h1 (hl u hu)
            · exact Or.inr ⟨u, hu2, hc⟩

set_option maxRecDepth 100000 in
/-- C5 counterexample: `xxxxpaypal.com` is not a trusted domain or a
subdomain of one, its similarity ratio to the trusted entry `paypal.com` is
5/6 ≥ 0.8, yet `detect_lookalike` does not flag it (the entry is skipped by
the length-difference guard), so the claimed iff fails. -/
theorem c5_lookalike_counterexample :
    UrlAnalyzer.trustedOrSub (UrlAnalyzer.effective_domain "xxxxpaypal.com") = false ∧
    "paypal.com" ∈ UrlAnalyzer.TRUSTED_DOMAINS ∧
    UrlAnalyzer.SIMILARITY_THRESHOLD ≤
      UrlAnalyzer.ratioQ (UrlAnalyzer.effective_domain "xxxxpaypal.com")
        "paypal.com" ∧
    UrlAnalyzer.detect_lookalike "xxxxpaypal.com" = none := by
  refine ⟨by decide, by decide, ?_, by decide⟩
  rw [ratio_threshold_iff _ _ (by decide)]
  decide

/-- C5 amended: `detect_lookalike` reduces the host to its effective
(registrable two-label) domain and never flags a trusted domain or a
subdomain of one; for every other host it flags a lookalike iff the
effective domain's length lies in [3, 20] and some trusted entry whose
length differs by at most 3 has similarity ratio at least 0.8 — the two
length guards being the restrictions the counterexample forces onto the
claim. -/
theorem c5_lookalike_detection_amended :
    (∀ host : String,
      UrlAnalyzer.trustedOrSub (UrlAnalyzer.effective_domain host) = true →
        UrlAnalyzer.detect_lookalike host = none) ∧
    (∀ host : String,
      UrlAnalyzer.trustedOrSub (UrlAnalyzer.effective_domain host) = false →
        ((UrlAnalyzer.detect_lookalike host).isSome = true ↔
          (3 ≤ (UrlAnalyzer.effective_domain host).length ∧
           (UrlAnalyzer.effective_domain host).length ≤ 20 ∧
           ∃ t ∈ UrlAnalyzer.TRUSTED_DOMAINS,
             UrlAnalyzer.lenDiff (UrlAnalyzer.effective_domain host) t ≤ 3 ∧
             UrlAnalyzer.SIMILARITY_THRESHOLD ≤
               UrlAnalyzer.ratioQ (UrlAnalyzer.effective_domain host) t))) := by
  constructor
  · intro host h
    simp [UrlAnalyzer.detect_lookalike, h]
  · intro host h
    have hne : ¬ (UrlAnalyzer.trustedOrSub (UrlAnalyzer.effective_domain host)
        = true) := by simp [h]
    by_cases hlen : ((UrlAnalyzer.effective_domain host).length < 3 ||
        20 < (UrlAnalyzer.effective_domain host).length) = true
    · have hnone : UrlAnalyzer.detect_lookalike host = none := by
        unfold UrlAnalyzer.detect_lookalike
        rw [if_neg hne, if_pos hlen]
      rw [hnone]
      simp only [Option.isSome_none, Bool.false_eq_true, false_iff]
      rintro ⟨h3, h20, _⟩
      simp only [Bool.or_eq_true, decide_eq_true_eq] at hlen
      omega
    · simp only [Bool.or_eq_true, decide_eq_true_eq, not_or] at hlen
      have h3 : 3 ≤ (UrlAnalyzer.effective_domain host).length := by omega
      have h20 : (UrlAnalyzer.effective_domain host).length ≤ 20 := by omega
      have hdpos : ∀ t ∈ UrlAnalyzer.TRUSTED_DOMAINS,
          0 < UrlAnalyzer.seqRatioDen (UrlAnalyzer.effective_domain host) t := by
        intro t ht
        unfold UrlAnalyzer.seqRatioDen
        omega
      have hfold := bestStep_fold_spec (UrlAnalyzer.effective_domain host)
        UrlAnalyzer.TRUSTED_DOMAINS 0 1 none (by omega) (fun _ => rfl) hdpos
      have key : (UrlAnalyzer.detect_lookalike host).isSome = true ↔
          ((UrlAnalyzer.TRUSTED_DOMAINS.foldl
              (UrlAnalyzer.bestStep (UrlAnalyzer.effective_domain host))
              (0, 1, none)).2.2.isSome = true ∧
            4 * (UrlAnalyzer.TRUSTED_DOMAINS.foldl
              (UrlAnalyzer.bestStep (UrlAnalyzer.effective_domain host))
              (0, 1, none)).2.1 ≤
              5 * (UrlAnalyzer.TRUSTED_DOMAINS.foldl
                (UrlAnalyzer.bestStep (UrlAnalyzer.effective_domain host))
                (0, 1, none)).1) := by
        unfold UrlAnalyzer.detect_lookalike
        rw [if_neg hne, if_neg (by simp [hlen.1, hlen.2])]
        rcases hr2 : (UrlAnalyzer.TRUSTED_DOMAINS.foldl
            (UrlAnalyzer.bestStep (UrlAnalyzer.effective_domain host))
            (0, 1, none)).2.2 with _ | t
        · simp [hr2]
        · by_cases hth : 4 * (UrlAnalyzer.TRUSTED_DOMAINS.foldl
              (UrlAnalyzer.bestStep (UrlAnalyzer.effective_domain host))
              (0, 1, none)).2.1 ≤
              5 * (UrlAnalyzer.TRUSTED_DOMAINS.foldl
                (UrlAnalyzer.bestStep (UrlAnalyzer.effective_domain host))
                (0, 1, none)).1 <;>
            simp [hr2, hth]
      rw [key, hfold]
      simp only [Option.isSome_none, Bool.false_eq_true, false_and, false_or]
      constructor
      · rintro ⟨t, ht, hd3, hge⟩
        exact ⟨h3, h20, t, ht, hd3,
          (ratio_threshold_iff _ _ (hdpos t ht).ne').mpr hge⟩
      · rintro ⟨_, _, t, ht, hd3, hge⟩
        exact ⟨t, ht, hd3, (ratio_threshold_iff _ _ (hdpos t ht).ne').mp hge⟩

set_option maxRecDepth 100000 in
/-- Witness for C5 at concrete hosts: a subdomain of a trusted entry is
never flagged, and `paypa1.com` (ratio 9/10 against `paypal.com`) is
flagged. -/
theorem c5_lookalike_detection_amended_witness :
    UrlAnalyzer.detect_lookalike "shop.paypal.com" = none ∧
    (UrlAnalyzer.detect_lookalike "paypa1.com").isSome = true :=
  ⟨c5_lookalike_detection_amended.1 "shop.paypal.com" (by decide),
   (c5_lookalike_detection_amended.2 "paypa1.com" (by decide)).mpr
     ⟨by decide, by decide, "paypal.com", by decide, by decide,
      (ratio_threshold_iff _ _ (by decide)).mpr (by decide)⟩⟩
